import Mathlib

/-!
Verification development for the fuelcell_eng_dcl dataset parser
(mi/dataset/parser/fuelcell_eng_dcl.py).

Lines are modelled as lists of characters (Python 2 byte strings; a
character's byte value is Char.toNat).  The regular expressions used by the
parser are fixed-width or star-free enough that their search semantics are
captured by explicit scanning functions.  Python floats are modelled exactly:
the particle stores the NTP timestamp scaled to integer milliseconds, and the
rational-valued get_timestamp gives the value the source computes.
-/

namespace FuelCellEngDcl

/-- Numeric value of a list of decimal digit characters, most significant
first (the value of Python int on a plain digit string). -/
def digitsVal (l : List Char) : Nat :=
  l.foldl (fun a c => a * 10 + (c.toNat - 48)) 0

/-- Python str.isdigit: true iff the string is non-empty and every character
is a decimal digit. -/
def str_isdigit (l : List Char) : Bool :=
  !l.isEmpty && l.all Char.isDigit

/-- Whitespace characters stripped by Python int() around an integer
literal. -/
def isPySpace (c : Char) : Bool :=
  c == ' ' || c == '\t' || c == '\n' || c == '\x0d' || c == '\x0b' || c == '\x0c'

/-- Python int() applied to a string: strip surrounding whitespace, allow one
optional sign, then require at least one decimal digit and nothing else.
Returns none when Python would raise ValueError. -/
def pythonInt (l : List Char) : Option Int :=
  let l1 := (((l.dropWhile isPySpace).reverse.dropWhile isPySpace)).reverse
  match l1 with
  | '+' :: t => if str_isdigit t then some (digitsVal t : Int) else none
  | '-' :: t => if str_isdigit t then some (-(digitsVal t : Int)) else none
  | t => if str_isdigit t then some (digitsVal t : Int) else none

/-- Hexadecimal digit, as in the character class 0-9A-Fa-f of
END_DATA_REGEX. -/
def isHexChar (c : Char) : Bool :=
  c.isDigit || (97 ≤ c.toNat && c.toNat ≤ 102) || (65 ≤ c.toNat && c.toNat ≤ 70)

/-- The eleven characters that follow the dot-plus in NON_DATA_REGEX. -/
def noFcDataTag : List Char := " No_FC_Data".data

/-- re.search of NON_DATA_REGEX, the pattern dot-plus followed by
" No_FC_Data" (dot does not match a newline): true iff some position of the
line carries a non-newline character directly followed by " No_FC_Data". -/
def non_data_search : List Char → Bool
  | [] => false
  | c :: t => (c != '\n' && List.isPrefixOf noFcDataTag t) || non_data_search t

/-- The result of a successful DATE_MATCHER search: the matched 23-character
timestamp text (regex group 1) and the seven numeric capture groups
(groups 2 through 8). -/
structure DtgMatch where
  dtg : List Char
  year : Nat
  month : Nat
  day : Nat
  hour : Nat
  minute : Nat
  second : Nat
  millisecond : Nat
deriving DecidableEq

/-- Modelled from the spec: the timestamp pattern of DATE_MATCHER
(common_regexes is not part of this excerpt), the fixed-width form
YYYY/MM/DD HH:MM:SS.mmm with all components decimal digits.  Tries to match
the 23-character pattern at the head of the list. -/
def dateMatchAt : List Char → Option DtgMatch
  | y1 :: y2 :: y3 :: y4 :: a1 :: o1 :: o2 :: a2 :: d1 :: d2 :: a3 ::
    h1 :: h2 :: a4 :: i1 :: i2 :: a5 :: s1 :: s2 :: a6 :: m1 :: m2 :: m3 :: _ =>
    if y1.isDigit && y2.isDigit && y3.isDigit && y4.isDigit && a1 == '/' &&
       o1.isDigit && o2.isDigit && a2 == '/' && d1.isDigit && d2.isDigit &&
       a3 == ' ' && h1.isDigit && h2.isDigit && a4 == ':' &&
       i1.isDigit && i2.isDigit && a5 == ':' && s1.isDigit && s2.isDigit &&
       a6 == '.' && m1.isDigit && m2.isDigit && m3.isDigit then
      some { dtg := [y1, y2, y3, y4, a1, o1, o2, a2, d1, d2, a3,
                     h1, h2, a4, i1, i2, a5, s1, s2, a6, m1, m2, m3],
             year := digitsVal [y1, y2, y3, y4],
             month := digitsVal [o1, o2],
             day := digitsVal [d1, d2],
             hour := digitsVal [h1, h2],
             minute := digitsVal [i1, i2],
             second := digitsVal [s1, s2],
             millisecond := digitsVal [m1, m2, m3] }
    else none
  | _ => none

/-- re.search of DATE_MATCHER: leftmost position at which the fixed-width
timestamp pattern matches. -/
def dateSearch : List Char → Option DtgMatch
  | [] => none
  | c :: t =>
    match dateMatchAt (c :: t) with
    | some m => some m
    | none => dateSearch t

/-- The sub-pattern of START_DATA_REGEX after its leading space: an optional
sign, one or more decimal digits, then a comma. -/
def intCommaAt (l : List Char) : Bool :=
  let l1 := match l with
    | c :: t => if c == '+' || c == '-' then t else l
    | [] => l
  let ds := l1.takeWhile Char.isDigit
  !ds.isEmpty && (l1.dropWhile Char.isDigit).head? == some ','

/-- START_DATA_REGEX matched at the head of the list: a space, an optionally
signed integer, and a comma. -/
def startMatchAt : List Char → Bool
  | ' ' :: t => intCommaAt t
  | _ => false

/-- Scan for the leftmost match of START_DATA_MATCHER, returning the index
of the space that begins the match (match.start of group 1). -/
def startDataSearchAux : List Char → Nat → Option Nat
  | [], _ => none
  | c :: t, i => if startMatchAt (c :: t) then some i else startDataSearchAux t (i + 1)

/-- re.search of START_DATA_MATCHER: index of the leftmost occurrence of a
space, an optionally signed integer, and a comma. -/
def startDataSearch (s : List Char) : Option Nat :=
  startDataSearchAux s 0

/-- The sub-pattern of END_DATA_REGEX after the colon and its optional
space: an optionally signed integer, a space, then one or more hexadecimal
digits. -/
def signIntSpaceHex (l : List Char) : Bool :=
  let l1 := match l with
    | c :: t => if c == '+' || c == '-' then t else l
    | [] => l
  let ds := l1.takeWhile Char.isDigit
  !ds.isEmpty &&
    match l1.dropWhile Char.isDigit with
    | ' ' :: r => !(r.takeWhile isHexChar).isEmpty
    | _ => false

/-- END_DATA_REGEX matched at the head of the list: a colon, an optional
space, an optionally signed integer, a space, and at least one hexadecimal
digit.  The regex carries no end-of-line anchor. -/
def endMatchAt : List Char → Bool
  | ':' :: ' ' :: t => signIntSpaceHex t
  | ':' :: t => signIntSpaceHex t
  | _ => false

/-- re.search of END_DATA_MATCHER: true iff the terminator pattern occurs at
some position of the string. -/
def endDataSearch : List Char → Bool
  | [] => false
  | c :: t => endMatchAt (c :: t) || endDataSearch t

/-- FuelCellEngDclParser.good_field: exactly 27 tokens, each non-empty, and
after skipping one leading minus sign each token is a non-empty run of
decimal digits. -/
def good_field (field_array : List (List Char)) : Bool :=
  if field_array.length != 27 then false
  else field_array.all fun f =>
    if f.length > 0 then
      let start_char := if f.head? == some '-' then 1 else 0
      str_isdigit (f.drop start_char)
    else false

/-- FuelCellEngDclParser.good_checksum: running byte-value sum reduced
modulo 32768 after each addition, compared with the transmitted checksum. -/
def good_checksum (data_array : List Char) (read_checksum : Int) : Bool :=
  let calculated_checksum : Nat := data_array.foldl (fun a c => (a + c.toNat) % 32768) 0
  (calculated_checksum : Int) == read_checksum

/-- Days from 0001-01-01 to January 1 of the given year, proleptic Gregorian
(the value datetime.date.toordinal assigns to the previous December 31). -/
def days_before_year (y : Nat) : Nat :=
  (y - 1) * 365 + (y - 1) / 4 + (y - 1) / 400 - (y - 1) / 100

/-- Cumulative days before the first of each month in a non-leap year,
indexed 1 through 12. -/
def days_in_month_table (m : Nat) : Nat :=
  [0, 0, 31, 59, 90, 120, 151, 181, 212, 243, 273, 304, 334].getD m 0

/-- Gregorian leap-year rule. -/
def isleap (y : Nat) : Bool :=
  (y % 4 == 0 && y % 100 != 0) || y % 400 == 0

/-- Days from January 1 to the first of the given month. -/
def days_before_month (y m : Nat) : Nat :=
  days_in_month_table m + (if 2 < m && isleap y then 1 else 0)

/-- Proleptic Gregorian ordinal of a date, with 0001-01-01 as day one
(datetime.date.toordinal). -/
def toordinal (y m d : Nat) : Nat :=
  days_before_year y + days_before_month y m + d

/-- Modelled from the spec: calendar.timegm (the calendar module is not part
of this excerpt) - elapsed seconds since the Unix epoch with the six
calendar and clock components read as UTC, no timezone or DST adjustment.
The ordinal of 1970-01-01 is 719163. -/
def timegm (y mo d h mi s : Nat) : Int :=
  ((toordinal y mo d : Int) - 719163) * 86400 + (h : Int) * 3600 + (mi : Int) * 60 + (s : Int)

/-- The fixed offset between the NTP epoch (1900-01-01) and the Unix epoch
(1970-01-01), in seconds. -/
def NTP_DELTA : Nat := 2208988800

/-- Modelled from the spec: ntplib.system_to_ntp_time (ntplib is not part of
this excerpt) - add the fixed NTP-to-Unix epoch offset. -/
def system_to_ntp_time (t : ℚ) : ℚ := t + (NTP_DELTA : ℚ)

/-- FuelCellEngDclParser.get_timestamp, as the exact rational value of the
float the source returns: Unix epoch seconds of the first six components
plus milliseconds over 1000, shifted to the NTP epoch. -/
def get_timestamp (y mo d h mi s ms : Nat) : ℚ :=
  system_to_ntp_time ((timegm y mo d h mi s : ℚ) + (ms : ℚ) / 1000)

/-- The value of get_timestamp scaled to integer milliseconds.  This exact
integer stands for the float timestamp inside the particle so that records
stay kernel-computable. -/
def get_timestamp_ms (y mo d h mi s ms : Nat) : Int :=
  (timegm y mo d h mi s) * 1000 + ms + (NTP_DELTA : Int) * 1000

/-- The reason text of the 'No fuel cell data' diagnostic. -/
def noFuelCellText : List Char := "No fuel cell data on line".data

/-- The reason text of the 'Bad/Missing Timestamp' diagnostic. -/
def badTimestampText : List Char := "Bad/Missing Timestamp on line".data

/-- The reason text of the 'No data found' diagnostic. -/
def noDataText : List Char := "No data found on line".data

/-- The reason text of the 'No terminator found' diagnostic. -/
def noTerminatorText : List Char := "No terminator found on line".data

/-- The reason text of the 'Improper format' diagnostic. -/
def improperFormatText : List Char := "Improper format line".data

/-- The reason text of the 'Bad checksum' diagnostic. -/
def badChecksumText : List Char := "Bad checksum line".data

/-- The text log_warning appends after the reason before handing the message
to the exception callback. -/
def warningSuffix : List Char := " %d - No particle generated".data

/-- One diagnostic event delivered to the exception callback: the message
text and the 1-based number of the offending line. -/
structure Diagnostic where
  text : List Char
  line : Nat
deriving DecidableEq

/-- FuelCellEngDclParser.log_warning: build the diagnostic for the callback
from a reason text and the current line number. -/
def mkWarning (msg_text : List Char) (which_line : Nat) : Diagnostic :=
  ⟨msg_text ++ warningSuffix, which_line⟩

/-- A Python exception escaping the per-line processing. -/
inductive PyError where
  | valueError (literal : List Char)
  | indexError
deriving DecidableEq

/-- One engineering record as appended to the record buffer: the DCL
timestamp text, the 27 field tokens in payload order (generate_data_dict
attaches the fixed position-to-name table to exactly these tokens), and the
NTP timestamp in exact integer milliseconds. -/
structure Particle where
  dcl_controller_timestamp : List Char
  fields : List (List Char)
  ntp_timestamp_ms : Int
deriving DecidableEq

/-- Outcome of processing one input line. -/
inductive LineOutcome where
  | emitted (p : Particle)
  | warning (d : Diagnostic)
  | raised (e : PyError)
deriving DecidableEq

/-- The space-split reassembly step of parse_file: split the candidate data
string on spaces; with exactly two pieces keep the first, otherwise
concatenate every piece except the last, with no separator re-inserted. -/
def the_data_of (data_string : List Char) : List Char :=
  let data_part := data_string.splitOn ' '
  if data_part.length == 2 then data_part.headD []
  else
    match data_part with
    | [] => []
    | p :: rest => p ++ rest.dropLast.flatten

/-- The tail of parse_file after the frame has been located: split the
reassembled data at colons, parse the transmitted checksum with int(),
verify the checksum, validate the fields, and either build the particle or
produce the matching diagnostic.  int() on a non-integer literal raises
ValueError; a missing second colon piece raises IndexError. -/
def checksumAndFields (line_count : Nat) (found_dtg : DtgMatch)
    (the_data : List Char) : LineOutcome :=
  match the_data.splitOn ':' with
  | actual_data :: checksum_chars :: _ =>
    match pythonInt checksum_chars with
    | none => .raised (.valueError checksum_chars)
    | some read_checksum =>
      if good_checksum actual_data read_checksum then
        let the_fields := actual_data.splitOn ','
        if good_field the_fields then
          .emitted ⟨found_dtg.dtg, the_fields,
                    get_timestamp_ms found_dtg.year found_dtg.month found_dtg.day
                      found_dtg.hour found_dtg.minute found_dtg.second
                      found_dtg.millisecond⟩
        else .warning (mkWarning improperFormatText line_count)
      else .warning (mkWarning badChecksumText line_count)
  | _ => .raised .indexError

/-- The body of the parse_file loop for a single input line: the no-data
marker gate, the timestamp gate, the start-of-data gate, the terminator
gate, then checksum and field validation on the reassembled data. -/
def processLine (line_count : Nat) (row : List Char) : LineOutcome :=
  if non_data_search row then .warning (mkWarning noFuelCellText line_count)
  else
    match dateSearch row with
    | none => .warning (mkWarning badTimestampText line_count)
    | some found_dtg =>
      match startDataSearch row with
      | none => .warning (mkWarning noDataText line_count)
      | some idx =>
        let data_string := row.drop (idx + 1)
        if endDataSearch data_string then
          checksumAndFields line_count found_dtg (the_data_of data_string)
        else .warning (mkWarning noTerminatorText line_count)

/-- The record of a full scan: the record buffer, the diagnostics delivered
to the exception callback, and the exception that aborted the scan, if
any. -/
structure ParseResult where
  records : List Particle
  diags : List Diagnostic
  err : Option PyError
deriving DecidableEq

/-- The parse_file loop over the remaining lines, with the number of lines
already consumed.  An uncaught exception stops the loop; records and
diagnostics of earlier lines are kept. -/
def runLines : Nat → List (List Char) → ParseResult
  | _, [] => ⟨[], [], none⟩
  | n, row :: rest =>
    match processLine (n + 1) row with
    | .emitted p =>
      let r := runLines (n + 1) rest
      ⟨p :: r.records, r.diags, r.err⟩
    | .warning d =>
      let r := runLines (n + 1) rest
      ⟨r.records, d :: r.diags, r.err⟩
    | .raised e => ⟨[], [], some e⟩

/-- FuelCellEngDclParser.parse_file: scan the whole input, one line at a
time, starting with line number 1. -/
def parse_file (lines : List (List Char)) : ParseResult :=
  runLines 0 lines

/-- The particle of an outcome, when one was emitted. -/
def emittedOf : LineOutcome → Option Particle
  | .emitted p => some p
  | _ => none

/-- Whether an outcome is an uncaught exception. -/
def isRaised : LineOutcome → Bool
  | .raised _ => true
  | _ => false

/-- The lines the scan actually reaches, each tagged with its 1-based line
number; a line whose processing raises is the last one reached. -/
def processedEnum : Nat → List (List Char) → List (Nat × List Char)
  | _, [] => []
  | n, row :: rest =>
    (n + 1, row) ::
      (if isRaised (processLine (n + 1) row) then [] else processedEnum (n + 1) rest)

/-- Specification-side token normalisation: strip at most one leading minus
sign. -/
def strip_minus (f : List Char) : List Char :=
  if f.head? == some '-' then f.tail else f

/-- Specification-side checksum: the plain sum of the byte values of the
payload characters, reduced once. -/
def ord_sum (P : List Char) : Nat :=
  (P.map Char.toNat).sum

/-- A well-formed 27-field payload used by the concrete test fixtures; its
modulo-32768 byte-value checksum is 3448. -/
def c1Payload : List Char :=
  "1,2,3,4,5,6,7,8,9,10,11,12,13,14,15,16,17,18,19,20,21,22,23,24,25,26,27".data

/-- A fully valid input line. -/
def c1Row : List Char :=
  "2015/03/10 14:22:05.500 x ".data ++ c1Payload ++ ":3448 6d47\n".data

/-- A one-line input holding only the valid line. -/
def c1Lines : List (List Char) := [c1Row]

/-- The record the valid line produces. -/
def c1Particle : Particle :=
  ⟨"2015/03/10 14:22:05.500".data, c1Payload.splitOn ',',
   get_timestamp_ms 2015 3 10 14 22 5 500⟩

/-- The timestamp match of the lines stamped 2015/03/10 14:22:05.500. -/
def dtg20150310 : DtgMatch :=
  ⟨"2015/03/10 14:22:05.500".data, 2015, 3, 10, 14, 22, 5, 500⟩

/-- A garbled line whose first colon is not the checksum colon: int() is
applied to the text between the first two colons, the non-integer literal
a, and raises ValueError. -/
def c2Row : List Char := "2015/03/10 14:22:05.500 x 1,2:a:3 ff\n".data

/-- A line after the garbled one; alone it would draw the Bad/Missing
Timestamp diagnostic. -/
def c2ExtraRow : List Char := "some junk\n".data

/-- A garbled line for which int() receives the literal zz. -/
def c3Row : List Char := "2016/01/02 03:04:05.678 y 7,8:zz:9 ab\n".data

/-- A garbled line for which int() receives the literal b. -/
def c9Row : List Char := "2017/05/06 07:08:09.123 z 1,2:b:3 cd\n".data

/-- A short payload with byte-value sum 143. -/
def c4P : List Char := "1,2".data

/-- A line whose transmitted checksum 52 does not match the payload sum
143. -/
def c4Row : List Char := "2015/03/10 14:22:05.500 y 1,2:52 ff\n".data

/-- A candidate data string that splits on spaces into three pieces. -/
def c7Ds : List Char := "1,2 3:5 ff".data

/-- A line whose payload carries an extraneous embedded space. -/
def c7Row : List Char := "2015/03/10 14:22:05.500 q 1,2 3:5 ff\n".data

/-- A line on which the terminator pattern occurs but is followed by further
text, so it is not at line end. -/
def c8Row : List Char := "2015/03/10 14:22:05.500 z 1,2:52 ffX\n".data

/-- A data string carrying the terminator pattern. -/
def c8S : List Char := "1,2:52 ff".data

/-- A line without any terminator pattern. -/
def c8wRow : List Char := "2015/03/10 14:22:05.500 r 1,2,3 tail\n".data

/-- A second fully valid input line, with a plus-free first field. -/
def c10Row : List Char :=
  "2016/01/02 03:04:05.678 w ".data ++ c1Payload ++ ":3448 6d47\n".data

/-- The record the second valid line produces. -/
def c10Particle : Particle :=
  ⟨"2016/01/02 03:04:05.678".data, c1Payload.splitOn ',',
   get_timestamp_ms 2016 1 2 3 4 5 678⟩

/-- A 27-token field vector whose first token is 12a. -/
def c5BadFs : List (List Char) := ['1', '2', 'a'] :: List.replicate 26 ['1']

/-- A 27-token field vector whose first token is the signed integer -45. -/
def c5GoodFs : List (List Char) := ['-', '4', '5'] :: List.replicate 26 ['1']

/-- Reducing the running checksum sum modulo 32768 at every step agrees with
reducing the plain sum once at the end. -/
theorem checksum_foldl (P : List Char) :
    ∀ a : Nat,
      P.foldl (fun a c => (a + c.toNat) % 32768) (a % 32768) = (a + ord_sum P) % 32768 := by
  induction P with
  | nil => intro a; simp [ord_sum]
  | cons c t ih =>
    intro a
    simp only [List.foldl_cons, ord_sum, List.map_cons, List.sum_cons]
    rw [Nat.mod_add_mod, ih (a + c.toNat)]
    simp only [ord_sum]
    omega

/-- The per-token test of good_field, rephrased through strip_minus. -/
theorem tok_ok_iff (f : List Char) :
    (if f.length > 0 then
        str_isdigit (f.drop (if f.head? == some '-' then 1 else 0))
      else false) = true
    ↔ f ≠ [] ∧ strip_minus f ≠ [] ∧ (strip_minus f).all Char.isDigit = true := by
  cases f with
  | nil => simp
  | cons c t =>
    cases hc : (c == '-') with
    | true =>
      have hc' : c = '-' := by simpa using hc
      subst hc'
      simp [strip_minus, str_isdigit, List.isEmpty_iff]
    | false =>
      have hc' : ¬ c = '-' := by simpa using hc
      simp [strip_minus, str_isdigit, hc', List.isEmpty_iff]

/-- Inversion of processLine on an emitted record: every gate of the
pipeline passed, and the record is built from the fields of the payload that
the checksum validated. -/
theorem processLine_emitted {n : Nat} {row : List Char} {p : Particle}
    (h : processLine n row = .emitted p) :
    ∃ found_dtg idx ad cs rest c,
      non_data_search row = false ∧
      dateSearch row = some found_dtg ∧
      startDataSearch row = some idx ∧
      endDataSearch (row.drop (idx + 1)) = true ∧
      (the_data_of (row.drop (idx + 1))).splitOn ':' = ad :: cs :: rest ∧
      pythonInt cs = some c ∧
      good_checksum ad c = true ∧
      good_field (ad.splitOn ',') = true ∧
      p = ⟨found_dtg.dtg, ad.splitOn ',',
           get_timestamp_ms found_dtg.year found_dtg.month found_dtg.day
             found_dtg.hour found_dtg.minute found_dtg.second
             found_dtg.millisecond⟩ := by
  cases hnd : non_data_search row with
  | true => simp [processLine, hnd] at h
  | false =>
  cases hdt : dateSearch row with
  | none => simp [processLine, hnd, hdt] at h
  | some m =>
  cases hsd : startDataSearch row with
  | none => simp [processLine, hnd, hdt, hsd] at h
  | some idx =>
  cases hed : endDataSearch (row.drop (idx + 1)) with
  | false => simp [processLine, hnd, hdt, hsd, hed] at h
  | true =>
  have hc : checksumAndFields n m (the_data_of (row.drop (idx + 1))) = .emitted p := by
    simpa [processLine, hnd, hdt, hsd, hed] using h
  cases hsp : (the_data_of (row.drop (idx + 1))).splitOn ':' with
  | nil => simp [checksumAndFields, hsp] at hc
  | cons ad tl =>
  cases tl with
  | nil => simp [checksumAndFields, hsp] at hc
  | cons cs rest =>
  cases hpi : pythonInt cs with
  | none => simp [checksumAndFields, hsp, hpi] at hc
  | some c =>
  cases hgc : good_checksum ad c with
  | false => simp [checksumAndFields, hsp, hpi, hgc] at hc
  | true =>
  cases hgf : good_field (ad.splitOn ',') with
  | false => simp [checksumAndFields, hsp, hpi, hgc, hgf] at hc
  | true =>
  have hp : p = ⟨m.dtg, ad.splitOn ',',
      get_timestamp_ms m.year m.month m.day m.hour m.minute m.second m.millisecond⟩ := by
    simp only [checksumAndFields, hsp, hpi, hgc, hgf, if_true,
      LineOutcome.emitted.injEq] at hc
    exact hc.symm
  exact ⟨m, idx, ad, cs, rest, c, rfl, rfl, rfl, hed, hsp, hpi, hgc, hgf, hp⟩

/-- The record buffer is the in-order extraction of the emitted outcomes of
the lines the scan reaches. -/
theorem runLines_records (lines : List (List Char)) :
    ∀ n : Nat,
      (runLines n lines).records
        = (processedEnum n lines).filterMap (fun x => emittedOf (processLine x.1 x.2)) := by
  induction lines with
  | nil => intro n; simp [runLines, processedEnum]
  | cons row rest ih =>
    intro n
    cases h : processLine (n + 1) row with
    | emitted p => simp [runLines, processedEnum, h, emittedOf, isRaised, ih]
    | warning d => simp [runLines, processedEnum, h, emittedOf, isRaised, ih]
    | raised e => simp [runLines, processedEnum, h, emittedOf, isRaised]

/-- Inversion of emittedOf. -/
theorem emittedOf_eq_some {o : LineOutcome} {p : Particle}
    (h : emittedOf o = some p) : o = .emitted p := by
  cases o with
  | emitted q =>
    have hq : q = p := by simpa [emittedOf] using h
    rw [hq]
  | warning d => simp [emittedOf] at h
  | raised e => simp [emittedOf] at h

/-- good_field rejects any field vector that is not 27 tokens long. -/
theorem good_field_len {fs : List (List Char)} (hl : fs.length ≠ 27) :
    good_field fs = false := by
  simp [good_field, bne_iff_ne, hl]

/-- On a 27-token vector good_field is the conjunction of the per-token
tests. -/
theorem good_field_eq_all (fs : List (List Char)) (hl : fs.length = 27) :
    good_field fs = fs.all (fun f =>
      if f.length > 0 then
        str_isdigit (f.drop (if f.head? == some '-' then 1 else 0))
      else false) := by
  simp [good_field, hl]

/-- C5: good_field accepts a token list exactly when it has 27 tokens, each
non-empty, and each token is all decimal digits after stripping at most one
leading minus sign; 26- and 28-token lists are rejected, a vector holding
the token 12a is rejected, and the token -45 is accepted. -/
theorem claim_c5_good_field :
    (∀ fs : List (List Char),
        good_field fs = true ↔
          fs.length = 27 ∧ ∀ f ∈ fs, f ≠ [] ∧ strip_minus f ≠ [] ∧
            (strip_minus f).all Char.isDigit = true)
    ∧ good_field (List.replicate 26 ['1']) = false
    ∧ good_field (List.replicate 28 ['1']) = false
    ∧ (∀ fs : List (List Char), ['1', '2', 'a'] ∈ fs → good_field fs = false)
    ∧ good_field c5GoodFs = true := by
  have hiff : ∀ fs : List (List Char),
      good_field fs = true ↔
        fs.length = 27 ∧ ∀ f ∈ fs, f ≠ [] ∧ strip_minus f ≠ [] ∧
          (strip_minus f).all Char.isDigit = true := by
    intro fs
    constructor
    · intro h
      have hl : fs.length = 27 := by
        by_contra hne
        rw [good_field_len hne] at h
        exact absurd h (by simp)
      refine ⟨hl, ?_⟩
      rw [good_field_eq_all fs hl, List.all_eq_true] at h
      intro f hf
      exact (tok_ok_iff f).mp (h f hf)
    · rintro ⟨hl, hall⟩
      rw [good_field_eq_all fs hl, List.all_eq_true]
      intro f hf
      exact (tok_ok_iff f).mpr (hall f hf)
  refine ⟨hiff, by decide, by decide, ?_, by decide⟩
  intro fs hmem
  cases hgf : good_field fs with
  | false => rfl
  | true =>
    obtain ⟨-, hall⟩ := (hiff fs).mp hgf
    have hbad := (hall _ hmem).2.2
    exact absurd hbad (by decide)

/-- Witness for C5 at concrete field vectors. -/
theorem claim_c5_witness :
    good_field c5BadFs = false ∧ good_field (List.replicate 27 ['2']) = true :=
  ⟨claim_c5_good_field.2.2.2.1 c5BadFs (by decide),
   (claim_c5_good_field.1 (List.replicate 27 ['2'])).mpr (by decide)⟩

/-- C4: good_checksum accepts the byte-value sum of the payload reduced
modulo 32768 and rejects that value plus one modulo 32768; a located frame
whose transmitted checksum fails verification draws the Bad checksum
diagnostic from parse_file, with no record. -/
theorem claim_c4_checksum :
    (∀ P : List Char,
        good_checksum P ((ord_sum P % 32768 : Nat) : Int) = true
      ∧ good_checksum P (((ord_sum P % 32768 + 1) % 32768 : Nat) : Int) = false)
    ∧ (∀ (n : Nat) (row : List Char) (found_dtg : DtgMatch) (idx : Nat)
         (ad cs : List Char) (rest : List (List Char)) (c : Int),
        non_data_search row = false → dateSearch row = some found_dtg →
        startDataSearch row = some idx →
        endDataSearch (row.drop (idx + 1)) = true →
        (the_data_of (row.drop (idx + 1))).splitOn ':' = ad :: cs :: rest →
        pythonInt cs = some c → good_checksum ad c = false →
        processLine n row = .warning (mkWarning badChecksumText n)) := by
  constructor
  · intro P
    have hfold : P.foldl (fun a c => (a + c.toNat) % 32768) 0 = ord_sum P % 32768 := by
      have hstep := checksum_foldl P 0
      simpa using hstep
    constructor
    · simp [good_checksum, hfold]
    · simp only [good_checksum, hfold]
      rw [beq_eq_false_iff_ne]
      intro hcontra
      have hnat : ord_sum P % 32768 = (ord_sum P % 32768 + 1) % 32768 := by
        exact_mod_cast hcontra
      omega
  · intro n row found_dtg idx ad cs rest c h1 h2 h3 h4 h5 h6 h7
    simp [processLine, checksumAndFields, h1, h2, h3, h4, h5, h6, h7]

/-- Witness for C4 at a concrete payload and a concrete bad-checksum
line. -/
theorem claim_c4_witness :
    good_checksum c4P ((ord_sum c4P % 32768 : Nat) : Int) = true
    ∧ good_checksum c4P (((ord_sum c4P % 32768 + 1) % 32768 : Nat) : Int) = false
    ∧ processLine 1 c4Row = .warning (mkWarning badChecksumText 1) :=
  ⟨(claim_c4_checksum.1 c4P).1, (claim_c4_checksum.1 c4P).2,
   claim_c4_checksum.2 1 c4Row dtg20150310 25 "1,2".data "52".data [] 52
     (by decide) (by decide) (by decide) (by decide) (by decide) (by decide)
     (by decide)⟩

/-- C6: get_timestamp is the elapsed-seconds-since-the-Unix-epoch value of
the six calendar components read as UTC, plus milliseconds over 1000, plus
the fixed NTP offset 2208988800; the scaled integer form agrees, and the
value is anchored at the epoch and at the spec example 2015/03/10
14:22:05.500. -/
theorem claim_c6_timestamp :
    (∀ y mo d h mi s ms : Nat,
        get_timestamp y mo d h mi s ms
          = (timegm y mo d h mi s : ℚ) + (ms : ℚ) / 1000 + 2208988800
        ∧ (get_timestamp_ms y mo d h mi s ms : ℚ)
          = 1000 * get_timestamp y mo d h mi s ms)
    ∧ get_timestamp 1970 1 1 0 0 0 0 = 2208988800
    ∧ get_timestamp 2015 3 10 14 22 5 500 = (7269972251 : ℚ) / 2 := by
  have hform : ∀ y mo d h mi s ms : Nat,
      get_timestamp y mo d h mi s ms
        = (timegm y mo d h mi s : ℚ) + (ms : ℚ) / 1000 + 2208988800 := by
    intro y mo d h mi s ms
    simp only [get_timestamp, system_to_ntp_time, NTP_DELTA]
    push_cast
    ring
  refine ⟨fun y mo d h mi s ms => ⟨hform y mo d h mi s ms, ?_⟩, ?_, ?_⟩
  · rw [hform]
    simp only [get_timestamp_ms, NTP_DELTA]
    push_cast
    ring
  · have h0 : timegm 1970 1 1 0 0 0 = 0 := by decide
    rw [hform, h0]
    norm_num
  · have h1 : timegm 2015 3 10 14 22 5 = 1425997325 := by decide
    rw [hform, h1]
    norm_num

/-- C7: when the candidate data string splits on spaces into more than two
pieces, the reassembled data block is the concatenation of every piece but
the last with no separator re-inserted, and once the frame gates pass this
reassembled block is exactly what parse_file hands to checksum splitting
and validation. -/
theorem claim_c7_space_reassembly :
    (∀ ds : List Char, 2 < (ds.splitOn ' ').length →
        the_data_of ds = ((ds.splitOn ' ').dropLast).flatten)
    ∧ (∀ (n : Nat) (row : List Char) (found_dtg : DtgMatch) (idx : Nat),
        non_data_search row = false → dateSearch row = some found_dtg →
        startDataSearch row = some idx →
        endDataSearch (row.drop (idx + 1)) = true →
        processLine n row
          = checksumAndFields n found_dtg (the_data_of (row.drop (idx + 1)))) := by
  constructor
  · intro ds hlen
    have hne : ((ds.splitOn ' ').length == 2) = false := by
      rw [beq_eq_false_iff_ne]
      omega
    simp only [the_data_of, hne, Bool.false_eq_true, if_false]
    cases hsp : ds.splitOn ' ' with
    | nil => rw [hsp] at hlen; simp at hlen
    | cons p rest =>
      rw [hsp] at hlen
      cases rest with
      | nil => simp at hlen
      | cons q rs => simp [List.dropLast]
  · intro n row found_dtg idx h1 h2 h3 h4
    simp [processLine, h1, h2, h3, h4]

/-- Witness for C7 at a concrete three-piece data string and a concrete
line with an embedded extra space. -/
theorem claim_c7_witness :
    the_data_of c7Ds = ((c7Ds.splitOn ' ').dropLast).flatten
    ∧ processLine 1 c7Row
        = checksumAndFields 1 dtg20150310 (the_data_of (c7Row.drop 26)) :=
  ⟨claim_c7_space_reassembly.1 c7Ds (by decide),
   claim_c7_space_reassembly.2 1 c7Row dtg20150310 25 (by decide) (by decide)
     (by decide) (by decide)⟩

/-- C8 fails on the code: on a line where the terminator pattern occurs
followed by further text, so not at line end, the search still succeeds and
the line is not given the No terminator diagnostic; it proceeds to checksum
verification instead. -/
theorem claim_c8_counterexample :
    endDataSearch (c8Row.drop 26) = true
    ∧ processLine 1 c8Row = .warning (mkWarning badChecksumText 1)
    ∧ processLine 1 c8Row ≠ .warning (mkWarning noTerminatorText 1) := by
  refine ⟨by decide, by decide, by decide⟩

/-- C8 (amended): the terminator pattern is recognized when it occurs
anywhere in the candidate data string, with no end-of-line anchoring, and
only a line with no occurrence at all draws the No terminator
diagnostic. -/
theorem claim_c8_amended :
    (∀ s : List Char, endDataSearch s = true ↔ ∃ i, endMatchAt (s.drop i) = true)
    ∧ (∀ (n : Nat) (row : List Char) (found_dtg : DtgMatch) (idx : Nat),
        non_data_search row = false → dateSearch row = some found_dtg →
        startDataSearch row = some idx →
        endDataSearch (row.drop (idx + 1)) = false →
        processLine n row = .warning (mkWarning noTerminatorText n)) := by
  constructor
  · intro s
    induction s with
    | nil => simp [endDataSearch, endMatchAt]
    | cons c t ih =>
      simp only [endDataSearch, Bool.or_eq_true, ih]
      constructor
      · rintro (h | ⟨i, hi⟩)
        · exact ⟨0, h⟩
        · exact ⟨i + 1, by simpa using hi⟩
      · rintro ⟨i, hi⟩
        cases i with
        | zero => exact Or.inl (by simpa using hi)
        | succ j => exact Or.inr ⟨j, by simpa using hi⟩
  · intro n row found_dtg idx h1 h2 h3 h4
    simp [processLine, h1, h2, h3, h4]

/-- Witness for the amended C8 at a concrete terminator-bearing string and
a concrete terminator-free line. -/
theorem claim_c8_amended_witness :
    endDataSearch c8S = true
    ∧ processLine 1 c8wRow = .warning (mkWarning noTerminatorText 1) :=
  ⟨(claim_c8_amended.1 c8S).mpr ⟨3, by decide⟩,
   claim_c8_amended.2 1 c8wRow dtg20150310 25 (by decide) (by decide)
     (by decide) (by decide)⟩

/-- C10: good_field rejects any vector whose first token begins with a plus
sign, the start-of-data pattern accepts a plus sign, and no emitted record
ever has a plus-signed first field. -/
theorem claim_c10_plus_sign :
    (∀ (fs : List (List Char)) (f : List Char),
        fs.head? = some f → f.head? = some '+' → good_field fs = false)
    ∧ startMatchAt " +123,4".data = true
    ∧ (∀ (n : Nat) (row : List Char) (p : Particle) (f : List Char),
        processLine n row = .emitted p → p.fields.head? = some f →
        f.head? ≠ some '+') := by
  have hpart1 : ∀ (fs : List (List Char)) (f : List Char),
      fs.head? = some f → f.head? = some '+' → good_field fs = false := by
    intro fs f hhead hplus
    cases hgf : good_field fs with
    | false => rfl
    | true =>
      have hl : fs.length = 27 := by
        by_contra hne
        rw [good_field_len hne] at hgf
        exact absurd hgf (by simp)
      rw [good_field_eq_all fs hl, List.all_eq_true] at hgf
      have hmem : f ∈ fs := by
        cases fs with
        | nil => simp at hhead
        | cons a t =>
          have ha : a = f := by simpa using hhead
          rw [← ha]
          exact List.mem_cons_self a t
      obtain ⟨-, -, hdig⟩ := (tok_ok_iff f).mp (hgf f hmem)
      cases f with
      | nil => simp at hplus
      | cons c t =>
        have hc : c = '+' := by simpa using hplus
        subst hc
        have hsmeq : strip_minus ('+' :: t) = '+' :: t := by
          simp [strip_minus]
        rw [hsmeq, List.all_cons] at hdig
        simp at hdig
  refine ⟨hpart1, by decide, ?_⟩
  intro n row p f hemit hhead hplus
  obtain ⟨m, idx, ad, cs, rest, c, -, -, -, -, -, -, -, hgf, hp⟩ :=
    processLine_emitted hemit
  have hfields : p.fields = ad.splitOn ',' := by rw [hp]
  have hfalse : good_field p.fields = false := hpart1 p.fields f hhead hplus
  rw [hfields, hgf] at hfalse
  simp at hfalse

set_option maxRecDepth 40000 in
/-- Witness for C10 at a concrete plus-signed vector and the concrete
record of a valid line. -/
theorem claim_c10_witness :
    good_field [['+', '1']] = false ∧ (['1'] : List Char).head? ≠ some '+' :=
  ⟨claim_c10_plus_sign.1 [['+', '1']] ['+', '1'] (by decide) (by decide),
   claim_c10_plus_sign.2.2 1 c10Row c10Particle ['1'] (by decide) (by decide)⟩

/-- C2 fails on the code: the garbled line draws neither a diagnostic nor a
record but an uncaught ValueError from int(), and the exception prevents
the following line, which alone would draw the Bad/Missing Timestamp
diagnostic, from being processed at all. -/
theorem claim_c2_bug :
    processLine 1 c2Row = .raised (.valueError ['a'])
    ∧ parse_file [c2Row, c2ExtraRow] = ⟨[], [], some (.valueError ['a'])⟩
    ∧ processLine 2 c2ExtraRow = .warning (mkWarning badTimestampText 2) := by
  refine ⟨by decide, by decide, by decide⟩

/-- C3 fails on the code: a garbled line whose first colon is not the
checksum colon makes int() raise ValueError out of the per-line processing,
aborting the scan before a later fully valid line. -/
theorem claim_c3_bug :
    processLine 1 c3Row = .raised (.valueError "zz".data)
    ∧ parse_file [c3Row, c1Row] = ⟨[], [], some (.valueError "zz".data)⟩ := by
  refine ⟨by decide, by decide⟩

/-- C1: the record buffer is exactly the in-order extraction of the emitted
outcomes of the scanned lines, so line order is preserved with no
reordering or deduplication, and every buffered record was built from a
payload whose transmitted checksum passed good_checksum and whose field
vector passed good_field. -/
theorem claim_c1_buffer_invariant (lines : List (List Char)) :
    (parse_file lines).records
        = (processedEnum 0 lines).filterMap (fun x => emittedOf (processLine x.1 x.2))
    ∧ ∀ p ∈ (parse_file lines).records,
        good_field p.fields = true ∧
        ∃ (n : Nat) (row : List Char) (idx : Nat) (ad cs : List Char)
          (rest : List (List Char)) (c : Int),
          (n, row) ∈ processedEnum 0 lines ∧
          processLine n row = .emitted p ∧
          startDataSearch row = some idx ∧
          (the_data_of (row.drop (idx + 1))).splitOn ':' = ad :: cs :: rest ∧
          pythonInt cs = some c ∧
          good_checksum ad c = true ∧
          p.fields = ad.splitOn ',' := by
  have hrec : (parse_file lines).records
      = (processedEnum 0 lines).filterMap (fun x => emittedOf (processLine x.1 x.2)) :=
    runLines_records lines 0
  refine ⟨hrec, ?_⟩
  intro p hp
  rw [hrec] at hp
  obtain ⟨⟨n, row⟩, hxmem, hxe⟩ := List.mem_filterMap.mp hp
  have hpl : processLine n row = .emitted p := emittedOf_eq_some hxe
  obtain ⟨m, idx, ad, cs, rest, c, -, -, h3, -, h5, h6, h7, h8, h9⟩ :=
    processLine_emitted hpl
  have hfields : p.fields = ad.splitOn ',' := by rw [h9]
  refine ⟨?_, n, row, idx, ad, cs, rest, c, hxmem, hpl, h3, h5, h6, h7, hfields⟩
  rw [hfields]
  exact h8

set_option maxRecDepth 40000 in
/-- Witness for C1 at the concrete one-line input and its record. -/
theorem claim_c1_witness :
    good_field c1Particle.fields = true ∧
    ∃ (n : Nat) (row : List Char) (idx : Nat) (ad cs : List Char)
      (rest : List (List Char)) (c : Int),
      (n, row) ∈ processedEnum 0 c1Lines ∧
      processLine n row = .emitted c1Particle ∧
      startDataSearch row = some idx ∧
      (the_data_of (row.drop (idx + 1))).splitOn ':' = ad :: cs :: rest ∧
      pythonInt cs = some c ∧
      good_checksum ad c = true ∧
      c1Particle.fields = ad.splitOn ',' :=
  (claim_c1_buffer_invariant c1Lines).2 c1Particle (by decide)

/-- C9 fails on the code: a malformed line exists for which the diagnostic
callback is never invoked, because int() raises first and halts the
scan. -/
theorem claim_c9_bug :
    processLine 1 c9Row = .raised (.valueError ['b'])
    ∧ (parse_file [c9Row]).diags = []
    ∧ (parse_file [c9Row]).err = some (.valueError ['b']) := by
  refine ⟨by decide, by decide, by decide⟩

end FuelCellEngDcl
